import Mathlib

/-!
Verification of the `SmartVarToLetVisitor` in
`crates/oxc-modernize-core/src/variable_transformer.rs`.

The visitor walks a JavaScript syntax tree and rewrites `var` declarations
to `let` or `const`.  Its decision, taken in `visit_variable_declaration`,
is purely local to the declaration statement: if every declarator has an
initializer and every bound identifier's name passes a name heuristic
(the name contains the substring "const" or is one of a fixed list of
common constant-like names; destructuring patterns always pass), the
statement becomes `const`; otherwise it becomes `let`.  Declarations that
are already `let` or `const` are left alone.  The visitor also overrides
`visit_for_statement` / `visit_for_in_statement` / `visit_for_of_statement`
to set an `in_for_loop_declaration` flag around the loop-header visit; the
flag is saved and restored and is never read by any decision, so it is
modelled here as a reader-style parameter threaded through the walk.

The syntax-tree fragment below embeds the oxc AST shapes the visitor
inspects (`VariableDeclarationKind`, `BindingPatternKind`,
`VariableDeclarator.init`, `VariableDeclaration.declarations`,
`ForStatement.init/test/update/body`) together with enough expression and
statement structure for the default `walk_mut` recursion (arrow functions
carry statement bodies, so declarations nest inside expressions).
-/

namespace OxcModernize

/-- `oxc_ast::ast::VariableDeclarationKind`, restricted to the three kinds
the transformer distinguishes. -/
inductive VariableDeclarationKind : Type where
  | Var
  | Let
  | Const
deriving DecidableEq, Repr

/-- `oxc_ast::ast::BindingPatternKind`: the visitor only distinguishes
`BindingIdentifier` from every other (destructuring) pattern. -/
inductive BindingPatternKind : Type where
  | bindingIdentifier (name : String)
  | destructuringPattern
deriving DecidableEq, Repr

mutual
/-- A fragment of `oxc_ast::ast::Expression`; arrow functions carry
statement bodies, so the walk recurses from expressions back into
statements. -/
inductive Expression : Type where
  | identifierReference (name : String)
  | numericLiteral (n : Nat)
  | assignmentExpression (target : String) (value : Expression)
  | updateExpression (target : String)
  | arrowFunctionExpression (body : StatementList)
  | callExpression (callee : Expression) (argument : Expression)
deriving DecidableEq, Repr

/-- `Option<Expression>` (a declarator's initializer). -/
inductive OptExpression : Type where
  | none
  | some (e : Expression)
deriving DecidableEq, Repr

/-- `oxc_ast::ast::VariableDeclarator`: a binding pattern plus an optional
initializer. -/
inductive VariableDeclarator : Type where
  | mk (id : BindingPatternKind) (init : OptExpression)
deriving DecidableEq, Repr

/-- The `Vec<VariableDeclarator>` of a declaration statement. -/
inductive DeclaratorList : Type where
  | nil
  | cons (d : VariableDeclarator) (rest : DeclaratorList)
deriving DecidableEq, Repr

/-- `oxc_ast::ast::VariableDeclaration`: a kind token plus declarators. -/
inductive VariableDeclaration : Type where
  | mk (kind : VariableDeclarationKind) (declarations : DeclaratorList)
deriving DecidableEq, Repr

/-- `Option<VariableDeclaration>` (a for-statement's init clause). -/
inductive OptVariableDeclaration : Type where
  | none
  | some (d : VariableDeclaration)
deriving DecidableEq, Repr

/-- A fragment of `oxc_ast::ast::Statement`. -/
inductive Statement : Type where
  | declarationStmt (d : VariableDeclaration)
  | expressionStmt (e : Expression)
  | forStmt (init : OptVariableDeclaration) (test : OptExpression)
      (update : OptExpression) (body : Statement)
  | blockStmt (body : StatementList)
deriving DecidableEq, Repr

/-- A list of statements (a program or a block body). -/
inductive StatementList : Type where
  | nil
  | cons (s : Statement) (rest : StatementList)
deriving DecidableEq, Repr
end

/-- The kind token of a declaration. -/
def VariableDeclaration.kind : VariableDeclaration → VariableDeclarationKind
  | .mk k _ => k

/-- The declarator list of a declaration. -/
def VariableDeclaration.declarations : VariableDeclaration → DeclaratorList
  | .mk _ ds => ds

/-- Rust `str::is_prefix`-style check on char lists, used to implement
substring containment (`List.isPrefixOf` is from core). -/
def isInfixOfChars (pat : List Char) : List Char → Bool
  | [] => pat.isEmpty
  | c :: rest => pat.isPrefixOf (c :: rest) || isInfixOfChars pat rest

/-- Rust `str::contains(pat)`: `pat` occurs as a contiguous substring. -/
def stringContains (s pat : String) : Bool :=
  isInfixOfChars pat.toList s.toList

/-- The name heuristic of `visit_variable_declaration`:
`var_name.contains("const") || var_name == "a" || var_name == "name" ||
 var_name == "obj" || var_name == "arr" || var_name == "result" ||
 var_name == "config" || var_name == "settings"`. -/
def nameSuggestsConst (varName : String) : Bool :=
  stringContains varName "const" || varName == "a" || varName == "name" ||
    varName == "obj" || varName == "arr" || varName == "result" ||
    varName == "config" || varName == "settings"

/-- The first loop of `visit_variable_declaration` (`can_be_const`): every
declarator has an initializer (the Rust loop breaks at the first missing
one, which computes the same conjunction). -/
def allHaveInit : DeclaratorList → Bool
  | .nil => true
  | .cons (.mk _ .none) _ => false
  | .cons (.mk _ (.some _)) rest => allHaveInit rest

/-- The per-declarator body of the second loop (`all_can_be_const`): a
`BindingIdentifier` passes iff its name passes the heuristic; any other
pattern (destructuring) passes unconditionally. -/
def declaratorCanBeConst : VariableDeclarator → Bool
  | .mk (.bindingIdentifier ident) _ => nameSuggestsConst ident
  | .mk .destructuringPattern _ => true

/-- The second loop of `visit_variable_declaration`: `all_can_be_const` is
only ever cleared, so its final value is the conjunction over declarators. -/
def allCanBeConst : DeclaratorList → Bool
  | .nil => true
  | .cons d rest => declaratorCanBeConst d && allCanBeConst rest

/-- The kind chosen by `visit_variable_declaration` for a `var`
declaration: `Const` when every declarator is initialized and every
declarator passes the name check, otherwise `Let`. -/
def smartKind (declarations : DeclaratorList) : VariableDeclarationKind :=
  if allHaveInit declarations then
    if allCanBeConst declarations then .Const else .Let
  else .Let

mutual
/-- Default `walk_mut` recursion through expressions (the visitor overrides
no expression hook, so it only recurses). -/
def visitExpression (inForLoopDeclaration : Bool) :
    Expression → Expression
  | .identifierReference n => .identifierReference n
  | .numericLiteral n => .numericLiteral n
  | .assignmentExpression t v =>
      .assignmentExpression t (visitExpression inForLoopDeclaration v)
  | .updateExpression t => .updateExpression t
  | .arrowFunctionExpression body =>
      .arrowFunctionExpression (visitStatementList inForLoopDeclaration body)
  | .callExpression f a =>
      .callExpression (visitExpression inForLoopDeclaration f)
        (visitExpression inForLoopDeclaration a)

/-- Walk an optional expression. -/
def visitOptExpression (inForLoopDeclaration : Bool) :
    OptExpression → OptExpression
  | .none => .none
  | .some e => .some (visitExpression inForLoopDeclaration e)

/-- Walk a declarator (its pattern is not modified; its initializer is
walked). -/
def visitVariableDeclarator (inForLoopDeclaration : Bool) :
    VariableDeclarator → VariableDeclarator
  | .mk id init => .mk id (visitOptExpression inForLoopDeclaration init)

/-- Walk a declarator list. -/
def visitDeclaratorList (inForLoopDeclaration : Bool) :
    DeclaratorList → DeclaratorList
  | .nil => .nil
  | .cons d rest =>
      .cons (visitVariableDeclarator inForLoopDeclaration d)
        (visitDeclaratorList inForLoopDeclaration rest)

/-- `visit_variable_declaration`: on `kind == Var` assign the new kind from
`smartKind`; on any other kind do nothing; then
`walk_variable_declaration` recurses into the declarators. -/
def visitVariableDeclaration (inForLoopDeclaration : Bool) :
    VariableDeclaration → VariableDeclaration
  | .mk kind declarations =>
      let newKind :=
        match kind with
        | .Var => smartKind declarations
        | k => k
      .mk newKind (visitDeclaratorList inForLoopDeclaration declarations)

/-- Walk an optional for-init declaration. -/
def visitOptVariableDeclaration (inForLoopDeclaration : Bool) :
    OptVariableDeclaration → OptVariableDeclaration
  | .none => .none
  | .some d => .some (visitVariableDeclaration inForLoopDeclaration d)

/-- Statement dispatch; the `forStmt` case is `visit_for_statement`: the
init clause is visited with `in_for_loop_declaration` set to `true`, the
flag is restored to its saved value, and test/update/body are visited with
the original value. -/
def visitStatement (inForLoopDeclaration : Bool) : Statement → Statement
  | .declarationStmt d =>
      .declarationStmt (visitVariableDeclaration inForLoopDeclaration d)
  | .expressionStmt e =>
      .expressionStmt (visitExpression inForLoopDeclaration e)
  | .forStmt init test update body =>
      .forStmt (visitOptVariableDeclaration true init)
        (visitOptExpression inForLoopDeclaration test)
        (visitOptExpression inForLoopDeclaration update)
        (visitStatement inForLoopDeclaration body)
  | .blockStmt body =>
      .blockStmt (visitStatementList inForLoopDeclaration body)

/-- Walk a statement list. -/
def visitStatementList (inForLoopDeclaration : Bool) :
    StatementList → StatementList
  | .nil => .nil
  | .cons s rest =>
      .cons (visitStatement inForLoopDeclaration s)
        (visitStatementList inForLoopDeclaration rest)
end

/-- `SmartVarToLetVisitor::new` initializes `in_for_loop_declaration` to
`false`; `visit_program` then walks the statement list. -/
def visitProgram (program : StatementList) : StatementList :=
  visitStatementList false program

mutual
/-- Whether any declaration anywhere in the expression still has kind
`Var` (arrow bodies can contain declarations). -/
def expressionHasVar : Expression → Bool
  | .identifierReference _ => false
  | .numericLiteral _ => false
  | .assignmentExpression _ v => expressionHasVar v
  | .updateExpression _ => false
  | .arrowFunctionExpression body => statementListHasVar body
  | .callExpression f a => expressionHasVar f || expressionHasVar a

/-- `Var` occurrence check for an optional expression. -/
def optExpressionHasVar : OptExpression → Bool
  | .none => false
  | .some e => expressionHasVar e

/-- `Var` occurrence check for a declarator (its initializer). -/
def variableDeclaratorHasVar : VariableDeclarator → Bool
  | .mk _ init => optExpressionHasVar init

/-- `Var` occurrence check for a declarator list. -/
def declaratorListHasVar : DeclaratorList → Bool
  | .nil => false
  | .cons d rest => variableDeclaratorHasVar d || declaratorListHasVar rest

/-- `Var` occurrence check for a declaration: its own kind token, or any
nested declaration inside its initializers. -/
def variableDeclarationHasVar : VariableDeclaration → Bool
  | .mk kind ds => (kind == .Var) || declaratorListHasVar ds

/-- `Var` occurrence check for an optional for-init declaration. -/
def optVariableDeclarationHasVar : OptVariableDeclaration → Bool
  | .none => false
  | .some d => variableDeclarationHasVar d

/-- `Var` occurrence check for a statement. -/
def statementHasVar : Statement → Bool
  | .declarationStmt d => variableDeclarationHasVar d
  | .expressionStmt e => expressionHasVar e
  | .forStmt init test update body =>
      optVariableDeclarationHasVar init || optExpressionHasVar test ||
        optExpressionHasVar update || statementHasVar body
  | .blockStmt body => statementListHasVar body

/-- `Var` occurrence check for a statement list. -/
def statementListHasVar : StatementList → Bool
  | .nil => false
  | .cons s rest => statementHasVar s || statementListHasVar rest
end

mutual
/-- Forget every declaration-kind token in an expression (normalize all
kinds to `Var`), keeping every other node intact. -/
def eraseKindsExpression : Expression → Expression
  | .identifierReference n => .identifierReference n
  | .numericLiteral n => .numericLiteral n
  | .assignmentExpression t v => .assignmentExpression t (eraseKindsExpression v)
  | .updateExpression t => .updateExpression t
  | .arrowFunctionExpression body =>
      .arrowFunctionExpression (eraseKindsStatementList body)
  | .callExpression f a =>
      .callExpression (eraseKindsExpression f) (eraseKindsExpression a)

/-- Kind erasure for an optional expression. -/
def eraseKindsOptExpression : OptExpression → OptExpression
  | .none => .none
  | .some e => .some (eraseKindsExpression e)

/-- Kind erasure for a declarator. -/
def eraseKindsVariableDeclarator : VariableDeclarator → VariableDeclarator
  | .mk id init => .mk id (eraseKindsOptExpression init)

/-- Kind erasure for a declarator list. -/
def eraseKindsDeclaratorList : DeclaratorList → DeclaratorList
  | .nil => .nil
  | .cons d rest =>
      .cons (eraseKindsVariableDeclarator d) (eraseKindsDeclaratorList rest)

/-- Kind erasure for a declaration: the kind token is normalized away. -/
def eraseKindsVariableDeclaration : VariableDeclaration → VariableDeclaration
  | .mk _ ds => .mk .Var (eraseKindsDeclaratorList ds)

/-- Kind erasure for an optional for-init declaration. -/
def eraseKindsOptVariableDeclaration :
    OptVariableDeclaration → OptVariableDeclaration
  | .none => .none
  | .some d => .some (eraseKindsVariableDeclaration d)

/-- Kind erasure for a statement. -/
def eraseKindsStatement : Statement → Statement
  | .declarationStmt d => .declarationStmt (eraseKindsVariableDeclaration d)
  | .expressionStmt e => .expressionStmt (eraseKindsExpression e)
  | .forStmt init test update body =>
      .forStmt (eraseKindsOptVariableDeclaration init)
        (eraseKindsOptExpression test) (eraseKindsOptExpression update)
        (eraseKindsStatement body)
  | .blockStmt body => .blockStmt (eraseKindsStatementList body)

/-- Kind erasure for a statement list. -/
def eraseKindsStatementList : StatementList → StatementList
  | .nil => .nil
  | .cons s rest =>
      .cons (eraseKindsStatement s) (eraseKindsStatementList rest)
end

mutual
/-- The `in_for_loop_declaration` flag never influences the walk of an
expression. -/
theorem visitExpression_flag (b₁ b₂ : Bool) :
    ∀ e, visitExpression b₁ e = visitExpression b₂ e
  | .identifierReference _ => by simp only [visitExpression]
  | .numericLiteral _ => by simp only [visitExpression]
  | .assignmentExpression t v => by
      simp only [visitExpression, visitExpression_flag b₁ b₂ v]
  | .updateExpression _ => by simp only [visitExpression]
  | .arrowFunctionExpression body => by
      simp only [visitExpression, visitStatementList_flag b₁ b₂ body]
  | .callExpression f a => by
      simp only [visitExpression, visitExpression_flag b₁ b₂ f,
        visitExpression_flag b₁ b₂ a]

/-- Flag independence for optional expressions. -/
theorem visitOptExpression_flag (b₁ b₂ : Bool) :
    ∀ oe, visitOptExpression b₁ oe = visitOptExpression b₂ oe
  | .none => by simp only [visitOptExpression]
  | .some e => by
      simp only [visitOptExpression, visitExpression_flag b₁ b₂ e]

/-- Flag independence for declarators. -/
theorem visitVariableDeclarator_flag (b₁ b₂ : Bool) :
    ∀ d, visitVariableDeclarator b₁ d = visitVariableDeclarator b₂ d
  | .mk id init => by
      simp only [visitVariableDeclarator, visitOptExpression_flag b₁ b₂ init]

/-- Flag independence for declarator lists. -/
theorem visitDeclaratorList_flag (b₁ b₂ : Bool) :
    ∀ ds, visitDeclaratorList b₁ ds = visitDeclaratorList b₂ ds
  | .nil => by simp only [visitDeclaratorList]
  | .cons d rest => by
      simp only [visitDeclaratorList, visitVariableDeclarator_flag b₁ b₂ d,
        visitDeclaratorList_flag b₁ b₂ rest]

/-- Flag independence for declarations: the kind decision reads only the
declarators, never the flag. -/
theorem visitVariableDeclaration_flag (b₁ b₂ : Bool) :
    ∀ d, visitVariableDeclaration b₁ d = visitVariableDeclaration b₂ d
  | .mk kind ds => by
      simp only [visitVariableDeclaration, visitDeclaratorList_flag b₁ b₂ ds]

/-- Flag independence for optional for-init declarations. -/
theorem visitOptVariableDeclaration_flag (b₁ b₂ : Bool) :
    ∀ od, visitOptVariableDeclaration b₁ od = visitOptVariableDeclaration b₂ od
  | .none => by simp only [visitOptVariableDeclaration]
  | .some d => by
      simp only [visitOptVariableDeclaration,
        visitVariableDeclaration_flag b₁ b₂ d]

/-- Flag independence for statements (the for-init is visited with the
flag forced to `true` on both sides). -/
theorem visitStatement_flag (b₁ b₂ : Bool) :
    ∀ s, visitStatement b₁ s = visitStatement b₂ s
  | .declarationStmt d => by
      simp only [visitStatement, visitVariableDeclaration_flag b₁ b₂ d]
  | .expressionStmt e => by
      simp only [visitStatement, visitExpression_flag b₁ b₂ e]
  | .forStmt init test update body => by
      simp only [visitStatement, visitOptExpression_flag b₁ b₂ test,
        visitOptExpression_flag b₁ b₂ update, visitStatement_flag b₁ b₂ body]
  | .blockStmt body => by
      simp only [visitStatement, visitStatementList_flag b₁ b₂ body]

/-- Flag independence for statement lists. -/
theorem visitStatementList_flag (b₁ b₂ : Bool) :
    ∀ ss, visitStatementList b₁ ss = visitStatementList b₂ ss
  | .nil => by simp only [visitStatementList]
  | .cons s rest => by
      simp only [visitStatementList, visitStatement_flag b₁ b₂ s,
        visitStatementList_flag b₁ b₂ rest]
end

/-- The kind chosen for a `var` declaration is never `Var` again: both
branches of `smartKind` produce `Let` or `Const`. -/
theorem smartKind_ne_Var (ds : DeclaratorList) :
    (smartKind ds == VariableDeclarationKind.Var) = false := by
  unfold smartKind
  split
  · split <;> rfl
  · rfl

mutual
/-- After the walk, no declaration inside an expression has kind `Var`. -/
theorem visitExpression_noVar (b : Bool) :
    ∀ e, expressionHasVar (visitExpression b e) = false
  | .identifierReference _ => by simp [visitExpression, expressionHasVar]
  | .numericLiteral _ => by simp [visitExpression, expressionHasVar]
  | .assignmentExpression t v => by
      simp [visitExpression, expressionHasVar, visitExpression_noVar b v]
  | .updateExpression _ => by simp [visitExpression, expressionHasVar]
  | .arrowFunctionExpression body => by
      simp [visitExpression, expressionHasVar, visitStatementList_noVar b body]
  | .callExpression f a => by
      simp [visitExpression, expressionHasVar, visitExpression_noVar b f,
        visitExpression_noVar b a]

/-- No `Var` left in a visited optional expression. -/
theorem visitOptExpression_noVar (b : Bool) :
    ∀ oe, optExpressionHasVar (visitOptExpression b oe) = false
  | .none => by simp [visitOptExpression, optExpressionHasVar]
  | .some e => by
      simp [visitOptExpression, optExpressionHasVar, visitExpression_noVar b e]

/-- No `Var` left in a visited declarator. -/
theorem visitVariableDeclarator_noVar (b : Bool) :
    ∀ d, variableDeclaratorHasVar (visitVariableDeclarator b d) = false
  | .mk id init => by
      simp [visitVariableDeclarator, variableDeclaratorHasVar,
        visitOptExpression_noVar b init]

/-- No `Var` left in a visited declarator list. -/
theorem visitDeclaratorList_noVar (b : Bool) :
    ∀ ds, declaratorListHasVar (visitDeclaratorList b ds) = false
  | .nil => by simp [visitDeclaratorList, declaratorListHasVar]
  | .cons d rest => by
      simp [visitDeclaratorList, declaratorListHasVar,
        visitVariableDeclarator_noVar b d, visitDeclaratorList_noVar b rest]

/-- No `Var` left in a visited declaration: a `Var` kind is replaced by
`smartKind`, the other kinds were already not `Var`. -/
theorem visitVariableDeclaration_noVar (b : Bool) :
    ∀ d, variableDeclarationHasVar (visitVariableDeclaration b d) = false
  | .mk kind ds => by
      cases kind <;>
        simp [visitVariableDeclaration, variableDeclarationHasVar,
          smartKind_ne_Var ds, visitDeclaratorList_noVar b ds]

/-- No `Var` left in a visited optional for-init declaration. -/
theorem visitOptVariableDeclaration_noVar (b : Bool) :
    ∀ od, optVariableDeclarationHasVar (visitOptVariableDeclaration b od) = false
  | .none => by simp [visitOptVariableDeclaration, optVariableDeclarationHasVar]
  | .some d => by
      simp [visitOptVariableDeclaration, optVariableDeclarationHasVar,
        visitVariableDeclaration_noVar b d]

/-- No `Var` left in a visited statement. -/
theorem visitStatement_noVar (b : Bool) :
    ∀ s, statementHasVar (visitStatement b s) = false
  | .declarationStmt d => by
      simp [visitStatement, statementHasVar, visitVariableDeclaration_noVar b d]
  | .expressionStmt e => by
      simp [visitStatement, statementHasVar, visitExpression_noVar b e]
  | .forStmt init test update body => by
      simp [visitStatement, statementHasVar,
        visitOptVariableDeclaration_noVar true init,
        visitOptExpression_noVar b test, visitOptExpression_noVar b update,
        visitStatement_noVar b body]
  | .blockStmt body => by
      simp [visitStatement, statementHasVar, visitStatementList_noVar b body]

/-- No `Var` left in a visited statement list. -/
theorem visitStatementList_noVar (b : Bool) :
    ∀ ss, statementListHasVar (visitStatementList b ss) = false
  | .nil => by simp [visitStatementList, statementListHasVar]
  | .cons s rest => by
      simp [visitStatementList, statementListHasVar, visitStatement_noVar b s,
        visitStatementList_noVar b rest]
end

mutual
/-- An expression containing no `Var` declaration is left untouched. -/
theorem visitExpression_fix (b : Bool) :
    ∀ e, expressionHasVar e = false → visitExpression b e = e
  | .identifierReference _, _ => by simp [visitExpression]
  | .numericLiteral _, _ => by simp [visitExpression]
  | .assignmentExpression t v, h => by
      simp only [expressionHasVar] at h
      simp [visitExpression, visitExpression_fix b v h]
  | .updateExpression _, _ => by simp [visitExpression]
  | .arrowFunctionExpression body, h => by
      simp only [expressionHasVar] at h
      simp [visitExpression, visitStatementList_fix b body h]
  | .callExpression f a, h => by
      simp only [expressionHasVar, Bool.or_eq_false_iff] at h
      simp [visitExpression, visitExpression_fix b f h.1,
        visitExpression_fix b a h.2]

/-- A `Var`-free optional expression is left untouched. -/
theorem visitOptExpression_fix (b : Bool) :
    ∀ oe, optExpressionHasVar oe = false → visitOptExpression b oe = oe
  | .none, _ => by simp [visitOptExpression]
  | .some e, h => by
      simp only [optExpressionHasVar] at h
      simp [visitOptExpression, visitExpression_fix b e h]

/-- A `Var`-free declarator is left untouched. -/
theorem visitVariableDeclarator_fix (b : Bool) :
    ∀ d, variableDeclaratorHasVar d = false → visitVariableDeclarator b d = d
  | .mk id init, h => by
      simp only [variableDeclaratorHasVar] at h
      simp [visitVariableDeclarator, visitOptExpression_fix b init h]

/-- A `Var`-free declarator list is left untouched. -/
theorem visitDeclaratorList_fix (b : Bool) :
    ∀ ds, declaratorListHasVar ds = false → visitDeclaratorList b ds = ds
  | .nil, _ => by simp [visitDeclaratorList]
  | .cons d rest, h => by
      simp only [declaratorListHasVar, Bool.or_eq_false_iff] at h
      simp [visitDeclaratorList, visitVariableDeclarator_fix b d h.1,
        visitDeclaratorList_fix b rest h.2]

/-- A declaration whose kind is already `Let` or `Const`, with `Var`-free
initializers, is left untouched (the `_ => {}` branch of the `match`). -/
theorem visitVariableDeclaration_fix (b : Bool) :
    ∀ d, variableDeclarationHasVar d = false → visitVariableDeclaration b d = d
  | .mk kind ds, h => by
      simp only [variableDeclarationHasVar, Bool.or_eq_false_iff] at h
      cases kind with
      | Var => exact absurd h.1 (by simp)
      | Let => simp [visitVariableDeclaration, visitDeclaratorList_fix b ds h.2]
      | Const => simp [visitVariableDeclaration, visitDeclaratorList_fix b ds h.2]

/-- A `Var`-free optional for-init declaration is left untouched. -/
theorem visitOptVariableDeclaration_fix (b : Bool) :
    ∀ od, optVariableDeclarationHasVar od = false →
      visitOptVariableDeclaration b od = od
  | .none, _ => by simp [visitOptVariableDeclaration]
  | .some d, h => by
      simp only [optVariableDeclarationHasVar] at h
      simp [visitOptVariableDeclaration, visitVariableDeclaration_fix b d h]

/-- A `Var`-free statement is left untouched. -/
theorem visitStatement_fix (b : Bool) :
    ∀ s, statementHasVar s = false → visitStatement b s = s
  | .declarationStmt d, h => by
      simp only [statementHasVar] at h
      simp [visitStatement, visitVariableDeclaration_fix b d h]
  | .expressionStmt e, h => by
      simp only [statementHasVar] at h
      simp [visitStatement, visitExpression_fix b e h]
  | .forStmt init test update body, h => by
      simp only [statementHasVar, Bool.or_eq_false_iff] at h
      simp [visitStatement, visitOptVariableDeclaration_fix true init h.1.1.1,
        visitOptExpression_fix b test h.1.1.2, visitOptExpression_fix b update h.1.2,
        visitStatement_fix b body h.2]
  | .blockStmt body, h => by
      simp only [statementHasVar] at h
      simp [visitStatement, visitStatementList_fix b body h]

/-- A `Var`-free statement list is left untouched. -/
theorem visitStatementList_fix (b : Bool) :
    ∀ ss, statementListHasVar ss = false → visitStatementList b ss = ss
  | .nil, _ => by simp [visitStatementList]
  | .cons s rest, h => by
      simp only [statementListHasVar, Bool.or_eq_false_iff] at h
      simp [visitStatementList, visitStatement_fix b s h.1,
        visitStatementList_fix b rest h.2]
end

mutual
/-- The walk changes nothing in an expression beyond declaration kinds. -/
theorem visitExpression_erase (b : Bool) :
    ∀ e, eraseKindsExpression (visitExpression b e) = eraseKindsExpression e
  | .identifierReference _ => by simp [visitExpression, eraseKindsExpression]
  | .numericLiteral _ => by simp [visitExpression, eraseKindsExpression]
  | .assignmentExpression t v => by
      simp [visitExpression, eraseKindsExpression, visitExpression_erase b v]
  | .updateExpression _ => by simp [visitExpression, eraseKindsExpression]
  | .arrowFunctionExpression body => by
      simp [visitExpression, eraseKindsExpression,
        visitStatementList_erase b body]
  | .callExpression f a => by
      simp [visitExpression, eraseKindsExpression, visitExpression_erase b f,
        visitExpression_erase b a]

/-- Frame property for optional expressions. -/
theorem visitOptExpression_erase (b : Bool) :
    ∀ oe, eraseKindsOptExpression (visitOptExpression b oe) =
      eraseKindsOptExpression oe
  | .none => by simp [visitOptExpression, eraseKindsOptExpression]
  | .some e => by
      simp [visitOptExpression, eraseKindsOptExpression,
        visitExpression_erase b e]

/-- Frame property for declarators. -/
theorem visitVariableDeclarator_erase (b : Bool) :
    ∀ d, eraseKindsVariableDeclarator (visitVariableDeclarator b d) =
      eraseKindsVariableDeclarator d
  | .mk id init => by
      simp [visitVariableDeclarator, eraseKindsVariableDeclarator,
        visitOptExpression_erase b init]

/-- Frame property for declarator lists. -/
theorem visitDeclaratorList_erase (b : Bool) :
    ∀ ds, eraseKindsDeclaratorList (visitDeclaratorList b ds) =
      eraseKindsDeclaratorList ds
  | .nil => by simp [visitDeclaratorList, eraseKindsDeclaratorList]
  | .cons d rest => by
      simp [visitDeclaratorList, eraseKindsDeclaratorList,
        visitVariableDeclarator_erase b d, visitDeclaratorList_erase b rest]

/-- Frame property for declarations: only the kind token differs, and kind
erasure forgets it. -/
theorem visitVariableDeclaration_erase (b : Bool) :
    ∀ d, eraseKindsVariableDeclaration (visitVariableDeclaration b d) =
      eraseKindsVariableDeclaration d
  | .mk kind ds => by
      simp [visitVariableDeclaration, eraseKindsVariableDeclaration,
        visitDeclaratorList_erase b ds]

/-- Frame property for optional for-init declarations. -/
theorem visitOptVariableDeclaration_erase (b : Bool) :
    ∀ od, eraseKindsOptVariableDeclaration (visitOptVariableDeclaration b od) =
      eraseKindsOptVariableDeclaration od
  | .none => by simp [visitOptVariableDeclaration, eraseKindsOptVariableDeclaration]
  | .some d => by
      simp [visitOptVariableDeclaration, eraseKindsOptVariableDeclaration,
        visitVariableDeclaration_erase b d]

/-- Frame property for statements. -/
theorem visitStatement_erase (b : Bool) :
    ∀ s, eraseKindsStatement (visitStatement b s) = eraseKindsStatement s
  | .declarationStmt d => by
      simp [visitStatement, eraseKindsStatement,
        visitVariableDeclaration_erase b d]
  | .expressionStmt e => by
      simp [visitStatement, eraseKindsStatement, visitExpression_erase b e]
  | .forStmt init test update body => by
      simp [visitStatement, eraseKindsStatement,
        visitOptVariableDeclaration_erase true init,
        visitOptExpression_erase b test, visitOptExpression_erase b update,
        visitStatement_erase b body]
  | .blockStmt body => by
      simp [visitStatement, eraseKindsStatement, visitStatementList_erase b body]

/-- Frame property for statement lists. -/
theorem visitStatementList_erase (b : Bool) :
    ∀ ss, eraseKindsStatementList (visitStatementList b ss) =
      eraseKindsStatementList ss
  | .nil => by simp [visitStatementList, eraseKindsStatementList]
  | .cons s rest => by
      simp [visitStatementList, eraseKindsStatementList,
        visitStatement_erase b s, visitStatementList_erase b rest]
end

/-- Some declarator of the statement has no initializer. -/
def anyMissingInit : DeclaratorList → Bool
  | .nil => false
  | .cons (.mk _ .none) _ => true
  | .cons (.mk _ (.some _)) rest => anyMissingInit rest

/-- The const-eligibility of a declarator depends only on its binding
pattern, restated on patterns alone. -/
def patternCanBeConst : BindingPatternKind → Bool
  | .bindingIdentifier n => nameSuggestsConst n
  | .destructuringPattern => true

/-- The shape of a declarator: its binding pattern and whether an
initializer is present. -/
def declaratorShape : VariableDeclarator → BindingPatternKind × Bool
  | .mk id .none => (id, false)
  | .mk id (.some _) => (id, true)

/-- The shapes of all declarators of a statement, in order. -/
def shapeList : DeclaratorList → List (BindingPatternKind × Bool)
  | .nil => []
  | .cons d rest => declaratorShape d :: shapeList rest

/-- On a `var` declaration the visitor installs exactly `smartKind` of the
declarators. -/
theorem visitVariableDeclaration_var_kind (b : Bool) (ds : DeclaratorList) :
    (visitVariableDeclaration b (VariableDeclaration.mk .Var ds)).kind =
      smartKind ds := by
  simp [visitVariableDeclaration, VariableDeclaration.kind]

/-- A missing initializer is exactly a failure of the first loop. -/
theorem anyMissingInit_eq : ∀ ds, anyMissingInit ds = !allHaveInit ds
  | .nil => rfl
  | .cons (.mk id .none) rest => by simp [anyMissingInit, allHaveInit]
  | .cons (.mk id (.some e)) rest => by
      simp [anyMissingInit, allHaveInit, anyMissingInit_eq rest]

/-- The first loop of the visitor only reads initializer presence. -/
theorem allHaveInit_shapes :
    ∀ ds, allHaveInit ds = (shapeList ds).all fun p => p.2
  | .nil => rfl
  | .cons (.mk id .none) rest => by
      simp [allHaveInit, shapeList, declaratorShape]
  | .cons (.mk id (.some e)) rest => by
      simp [allHaveInit, shapeList, declaratorShape, allHaveInit_shapes rest]

/-- The second loop of the visitor only reads the binding patterns. -/
theorem allCanBeConst_shapes :
    ∀ ds, allCanBeConst ds = (shapeList ds).all fun p => patternCanBeConst p.1
  | .nil => rfl
  | .cons (.mk (.bindingIdentifier n) .none) rest => by
      simp [allCanBeConst, shapeList, declaratorShape, declaratorCanBeConst,
        patternCanBeConst, allCanBeConst_shapes rest]
  | .cons (.mk (.bindingIdentifier n) (.some e)) rest => by
      simp [allCanBeConst, shapeList, declaratorShape, declaratorCanBeConst,
        patternCanBeConst, allCanBeConst_shapes rest]
  | .cons (.mk .destructuringPattern .none) rest => by
      simp [allCanBeConst, shapeList, declaratorShape, declaratorCanBeConst,
        patternCanBeConst, allCanBeConst_shapes rest]
  | .cons (.mk .destructuringPattern (.some e)) rest => by
      simp [allCanBeConst, shapeList, declaratorShape, declaratorCanBeConst,
        patternCanBeConst, allCanBeConst_shapes rest]

/-- The whole kind decision factors through the declarator shapes. -/
theorem smartKind_shapes (ds₁ ds₂ : DeclaratorList)
    (h : shapeList ds₁ = shapeList ds₂) : smartKind ds₁ = smartKind ds₂ := by
  unfold smartKind
  rw [allHaveInit_shapes, allCanBeConst_shapes, h,
    ← allHaveInit_shapes, ← allCanBeConst_shapes]

/-- `var a = 1; a = 2;` — the name `a` is reassigned after its
declaration. -/
def reassignedAProgram : StatementList :=
  .cons (.declarationStmt (.mk .Var
    (.cons (.mk (.bindingIdentifier "a") (.some (.numericLiteral 1))) .nil)))
  (.cons (.expressionStmt (.assignmentExpression "a" (.numericLiteral 2)))
    .nil)

/-- `x = 1; var x = 2;` — the name `x` is written on the statement before
its declaration (hoisting-dependent code). -/
def useBeforeDeclProgram : StatementList :=
  .cons (.expressionStmt (.assignmentExpression "x" (.numericLiteral 1)))
  (.cons (.declarationStmt (.mk .Var
    (.cons (.mk (.bindingIdentifier "x") (.some (.numericLiteral 2))) .nil)))
    .nil)

/-- `for (var i = 0; lessThan(i); i++) { push(() => i); }` — a loop-header
declaration whose body pushes a closure over the counter. -/
def loopClosureProgram : StatementList :=
  .cons (.forStmt
    (.some (.mk .Var
      (.cons (.mk (.bindingIdentifier "i") (.some (.numericLiteral 0))) .nil)))
    (.some (.callExpression (.identifierReference "lessThan")
      (.identifierReference "i")))
    (.some (.updateExpression "i"))
    (.blockStmt (.cons (.expressionStmt
      (.callExpression (.identifierReference "push")
        (.arrowFunctionExpression
          (.cons (.expressionStmt (.identifierReference "i")) .nil))))
      .nil)))
  .nil

/-- `var a = 1, name = 2; name = 3;` — one statement declaring two names,
the second of which is reassigned afterwards. -/
def mixedDeclaratorProgram : StatementList :=
  .cons (.declarationStmt (.mk .Var
    (.cons (.mk (.bindingIdentifier "a") (.some (.numericLiteral 1)))
    (.cons (.mk (.bindingIdentifier "name") (.some (.numericLiteral 2)))
      .nil))))
  (.cons (.expressionStmt (.assignmentExpression "name" (.numericLiteral 3)))
    .nil)

/-- `const x = 1;` — an already-block-scoped program. -/
def constOnlyProgram : StatementList :=
  .cons (.declarationStmt (.mk .Const
    (.cons (.mk (.bindingIdentifier "x") (.some (.numericLiteral 1))) .nil)))
  .nil

/-- C1: the claim says a binding with a `Write` reference must get verdict
`Mutable` and in particular a name that is later reassigned is never
rewritten to the immutable form.  The code contradicts this: on
`var a = 1; a = 2;` the name heuristic (the name `a` is on the constant
list) rewrites the declaration to `const a = 1` even though `a` is
reassigned by the next statement — the visitor never inspects references
at all. -/
theorem reassignedNameStillRewrittenToConst :
    visitProgram reassignedAProgram =
      .cons (.declarationStmt (.mk .Const
        (.cons (.mk (.bindingIdentifier "a")
          (.some (.numericLiteral 1))) .nil)))
      (.cons (.expressionStmt (.assignmentExpression "a" (.numericLiteral 2)))
        .nil) := by decide

/-- C2: the claim says a binding read or written lexically before its
declaration must get verdict `Unsafe` and the declaration must stay `var`.
The code has no hoisting-safety check and no `Unsafe` outcome: on
`x = 1; var x = 2;` the declaration is still rewritten to `let x = 2`
(the output differs from the input), which turns legal hoisted code into
an initialization-order failure. -/
theorem useBeforeDeclarationStillRewritten :
    visitProgram useBeforeDeclProgram =
      (.cons (.expressionStmt (.assignmentExpression "x" (.numericLiteral 1)))
       (.cons (.declarationStmt (.mk .Let
         (.cons (.mk (.bindingIdentifier "x")
           (.some (.numericLiteral 2))) .nil)))
         .nil))
    ∧ visitProgram useBeforeDeclProgram ≠ useBeforeDeclProgram := by decide

/-- C3: the claim says a loop-header declaration captured by a closure in
the body may only be rewritten together with a `CaptureSemanticsChange`
flag surfaced to the caller.  The visitor's entire output is the mutated
tree — it produces no report, no flag, and no location data — yet it still
rewrites the loop counter: on
`for (var i = 0; lessThan(i); i++) { push(() => i); }` the header
declaration silently becomes `let i = 0`. -/
theorem loopCaptureRewrittenSilently :
    visitProgram loopClosureProgram =
      .cons (.forStmt
        (.some (.mk .Let
          (.cons (.mk (.bindingIdentifier "i")
            (.some (.numericLiteral 0))) .nil)))
        (.some (.callExpression (.identifierReference "lessThan")
          (.identifierReference "i")))
        (.some (.updateExpression "i"))
        (.blockStmt (.cons (.expressionStmt
          (.callExpression (.identifierReference "push")
            (.arrowFunctionExpression
              (.cons (.expressionStmt (.identifierReference "i")) .nil))))
          .nil)))
      .nil := by decide

/-- C4: every `var` declaration is rewritten: the kind installed for a
`var` statement is always `Let` or `Const`, and a fully visited program
contains no `var` declaration anywhere — there is no outcome in which a
`var` declaration is excluded from rewrite. -/
theorem varDeclarationAlwaysRewritten :
    (∀ (b : Bool) (ds : DeclaratorList),
      (visitVariableDeclaration b (VariableDeclaration.mk .Var ds)).kind =
          VariableDeclarationKind.Let ∨
      (visitVariableDeclaration b (VariableDeclaration.mk .Var ds)).kind =
          VariableDeclarationKind.Const)
    ∧ ∀ ss : StatementList, statementListHasVar (visitProgram ss) = false := by
  constructor
  · intro b ds
    rw [visitVariableDeclaration_var_kind]
    unfold smartKind
    split
    · split
      · exact Or.inr rfl
      · exact Or.inl rfl
    · exact Or.inl rfl
  · intro ss
    exact visitStatementList_noVar false ss

/-- C5: the claim says that in a multi-name statement any declared name
with verdict `Mutable` forces the whole statement to the mutable form, and
the immutable form requires every name to have verdict `Immutable` — the
verdicts being the reference-based ones of the spec (any
Write/ReadWrite/DestructureBind reference makes a binding `Mutable`).
The code contradicts this: on `var a = 1, name = 2; name = 3;` the name
`name` is reassigned afterwards, so its verdict is `Mutable`, yet both
names pass the name heuristic and the whole statement is rewritten to
`const a = 1, name = 2` — the code feeds the all-or-nothing aggregation
with name-heuristic eligibility instead of reference-based verdicts, and
never inspects the reassignment. -/
theorem mixedStatementStillRewrittenToConst :
    visitProgram mixedDeclaratorProgram =
      .cons (.declarationStmt (.mk .Const
        (.cons (.mk (.bindingIdentifier "a") (.some (.numericLiteral 1)))
        (.cons (.mk (.bindingIdentifier "name") (.some (.numericLiteral 2)))
          .nil))))
      (.cons (.expressionStmt
        (.assignmentExpression "name" (.numericLiteral 3))) .nil) := by decide

/-- C6: a `var` statement with an uninitialized declarator is never
rewritten to the immutable form: it always becomes `let` (the code has no
`Unsafe` veto, so the default is unconditional). -/
theorem uninitializedDeclarationNeverConst :
    ∀ (b : Bool) (ds : DeclaratorList),
      anyMissingInit ds = true →
        (visitVariableDeclaration b (VariableDeclaration.mk .Var ds)).kind =
          VariableDeclarationKind.Let := by
  intro b ds h
  rw [anyMissingInit_eq, Bool.not_eq_eq_eq_not, Bool.not_true] at h
  rw [visitVariableDeclaration_var_kind]
  unfold smartKind
  simp [h]

/-- Witness for C6 at `var x;` (a single uninitialized declarator). -/
theorem uninitializedDeclarationNeverConst_witness :
    (visitVariableDeclaration false (VariableDeclaration.mk .Var
      (.cons (.mk (.bindingIdentifier "x") .none) .nil))).kind =
        VariableDeclarationKind.Let :=
  uninitializedDeclarationNeverConst false
    (.cons (.mk (.bindingIdentifier "x") .none) .nil) (by decide)

/-- C7: the kind installed for a `var` statement is a function of the
statement's own declarator shapes alone (bound patterns plus initializer
presence): two statements with equal shapes receive equal kinds, whatever
their initializer expressions, whatever the visitor's ambient loop flag,
and hence independent of any reads, writes or captures elsewhere in the
tree. -/
theorem declarationKindLocalToStatement :
    ∀ (b₁ b₂ : Bool) (ds₁ ds₂ : DeclaratorList),
      shapeList ds₁ = shapeList ds₂ →
        (visitVariableDeclaration b₁ (VariableDeclaration.mk .Var ds₁)).kind =
        (visitVariableDeclaration b₂ (VariableDeclaration.mk .Var ds₂)).kind := by
  intro b₁ b₂ ds₁ ds₂ h
  rw [visitVariableDeclaration_var_kind, visitVariableDeclaration_var_kind,
    smartKind_shapes ds₁ ds₂ h]

/-- Witness for C7: `var a = 1` against `var a = () => { a = 2; }` — same
shape, different initializers (the second one even contains a write to
the same name), same resulting kind. -/
theorem declarationKindLocalToStatement_witness :
    (visitVariableDeclaration false (VariableDeclaration.mk .Var
      (.cons (.mk (.bindingIdentifier "a")
        (.some (.numericLiteral 1))) .nil))).kind =
    (visitVariableDeclaration true (VariableDeclaration.mk .Var
      (.cons (.mk (.bindingIdentifier "a")
        (.some (.arrowFunctionExpression (.cons (.expressionStmt
          (.assignmentExpression "a" (.numericLiteral 2))) .nil)))) .nil))).kind :=
  declarationKindLocalToStatement false true
    (.cons (.mk (.bindingIdentifier "a") (.some (.numericLiteral 1))) .nil)
    (.cons (.mk (.bindingIdentifier "a")
      (.some (.arrowFunctionExpression (.cons (.expressionStmt
        (.assignmentExpression "a" (.numericLiteral 2))) .nil)))) .nil)
    (by decide)

/-- C8: the rewrite mutates only declaration-kind tokens: after erasing
every kind token, the visited tree is identical to the input tree, for
every input and every ambient flag value. -/
theorem rewriteChangesOnlyDeclarationKinds :
    ∀ (b : Bool) (ss : StatementList),
      eraseKindsStatementList (visitStatementList b ss) =
        eraseKindsStatementList ss :=
  fun b ss => visitStatementList_erase b ss

/-- C9: declarations already in a block-scoped form keep their kind
untouched, a tree containing no `var` declaration is returned unchanged,
and running the whole transformation on its own output changes nothing. -/
theorem blockScopedNoOpAndIdempotent :
    (∀ (b : Bool) (kind : VariableDeclarationKind) (ds : DeclaratorList),
      kind ≠ VariableDeclarationKind.Var →
        (visitVariableDeclaration b (VariableDeclaration.mk kind ds)).kind =
          kind)
    ∧ (∀ (b : Bool) (ss : StatementList),
        statementListHasVar ss = false → visitStatementList b ss = ss)
    ∧ ∀ ss : StatementList, visitProgram (visitProgram ss) = visitProgram ss := by
  refine ⟨?_, ?_, ?_⟩
  · intro b kind ds h
    cases kind with
    | Var => exact absurd rfl h
    | Let => simp [visitVariableDeclaration, VariableDeclaration.kind]
    | Const => simp [visitVariableDeclaration, VariableDeclaration.kind]
  · intro b ss h
    exact visitStatementList_fix b ss h
  · intro ss
    exact visitStatementList_fix false (visitStatementList false ss)
      (visitStatementList_noVar false ss)

/-- Witness for C9 at `const x = 1;`: the kind survives and the program is
returned unchanged. -/
theorem blockScopedNoOpAndIdempotent_witness :
    (visitVariableDeclaration false (VariableDeclaration.mk .Const
      (.cons (.mk (.bindingIdentifier "x")
        (.some (.numericLiteral 1))) .nil))).kind =
        VariableDeclarationKind.Const
    ∧ visitStatementList false constOnlyProgram = constOnlyProgram :=
  ⟨blockScopedNoOpAndIdempotent.1 false .Const
      (.cons (.mk (.bindingIdentifier "x")
        (.some (.numericLiteral 1))) .nil) (by decide),
    blockScopedNoOpAndIdempotent.2.1 false constOnlyProgram (by decide)⟩

/-- C10: the analysis-and-rewrite is deterministic: the output is a pure
function of the input tree.  The only mutable visitor state, the
`in_for_loop_declaration` flag, never influences the output, and
structurally identical inputs produce identical outputs. -/
theorem rewriteDeterministic :
    (∀ (b₁ b₂ : Bool) (ss : StatementList),
      visitStatementList b₁ ss = visitStatementList b₂ ss)
    ∧ ∀ ss₁ ss₂ : StatementList, ss₁ = ss₂ → visitProgram ss₁ = visitProgram ss₂ := by
  constructor
  · exact fun b₁ b₂ ss => visitStatementList_flag b₁ b₂ ss
  · intro ss₁ ss₂ h
    rw [h]

/-- Witness for C10 at the `const x = 1;` program. -/
theorem rewriteDeterministic_witness :
    visitProgram constOnlyProgram = visitProgram constOnlyProgram :=
  rewriteDeterministic.2 constOnlyProgram constOnlyProgram (by decide)

end OxcModernize
